import Mathlib

/-!
Shallow embedding of the QLogger library (qlogger.h / qlogger.cpp): an
asynchronous logging engine in which producers append formatted lines to a
mutex-guarded queue and a single worker thread drains the queue to a stream
(file, socket or console).  Qt strings are modelled as lists of characters,
machine integers as Int or Nat, and the worker loop as a fuel-indexed step
function; a `none` result of the loop models non-termination or undefined
behaviour.  The external stream is abstracted, as in the source, through the
QLoggerStream capability interface: the result of open(), the text of
errorString() and the return values of write() are the only data the logger
ever observes from it.
-/

/-- Model of the place-marker scanner used by QString.arg: collect the number
of every place marker (a percent sign followed by one or two digits, the two
digit form read greedily) occurring in the string, in scan order.  A percent
sign not followed by a digit is skipped and scanning resumes at the next
character, as in the Qt scanner.  The locale form of a marker (percent, L,
digit) is not modelled because no string in this development contains it. -/
def markersAux : List Char → List Nat
  | [] => []
  | ['%'] => []
  | ['%', d1] => if d1.isDigit then [d1.toNat - 48] else markersAux [d1]
  | '%' :: d1 :: d2 :: rest2 =>
    if d1.isDigit then
      if d2.isDigit then (10 * (d1.toNat - 48) + (d2.toNat - 48)) :: markersAux rest2
      else (d1.toNat - 48) :: markersAux (d2 :: rest2)
    else markersAux (d1 :: d2 :: rest2)
  | _ :: rest => markersAux rest

/-- Smallest element of a list of naturals, none when the list is empty. -/
def listMin : List Nat → Option Nat
  | [] => none
  | x :: xs => some (xs.foldl Nat.min x)

/-- Model of the replacement pass of QString.arg: every occurrence of the
place marker numbered k is replaced by v; all other characters, including
markers with other numbers, are copied verbatim.  The inserted text is
not rescanned within the same pass, as in Qt. -/
def replaceMarker (k : Nat) (v : List Char) : List Char → List Char
  | [] => []
  | ['%'] => ['%']
  | ['%', d1] =>
    if d1.isDigit then (if d1.toNat - 48 = k then v else ['%', d1])
    else '%' :: replaceMarker k v [d1]
  | '%' :: d1 :: d2 :: rest2 =>
    if d1.isDigit then
      if d2.isDigit then
        if 10 * (d1.toNat - 48) + (d2.toNat - 48) = k then v ++ replaceMarker k v rest2
        else '%' :: d1 :: d2 :: replaceMarker k v rest2
      else
        if d1.toNat - 48 = k then v ++ replaceMarker k v (d2 :: rest2)
        else '%' :: d1 :: replaceMarker k v (d2 :: rest2)
    else '%' :: replaceMarker k v (d1 :: d2 :: rest2)
  | c :: rest => c :: replaceMarker k v rest

/-- Model of QString.arg s v: the lowest numbered place marker of s is
located and every occurrence of it is replaced by v; if s contains no place
marker it is returned unchanged (Qt prints a warning and does the same). -/
def qarg (s v : List Char) : List Char :=
  match listMin (markersAux s) with
  | none => s
  | some k => replaceMarker k v s

/-- The formatted line built by QLogger::addMessage:
format_string.arg(datetime).arg(levelString).arg(message) + a newline. -/
def formatLine (fmt datetime levelString message : List Char) : List Char :=
  qarg (qarg (qarg fmt datetime) levelString) message ++ ['\n']

/-- The LogLevel enum class of qlogger.h, modelled by its underlying integer
so that values outside the four enumerators are expressible, as they are in
C++. -/
abbrev LogLevel : Type := Int

/-- Enumerator Info = 0 of the LogLevel enum. -/
def LogLevel.Info : LogLevel := 0

/-- Enumerator Debug = 1 of the LogLevel enum. -/
def LogLevel.Debug : LogLevel := 1

/-- Enumerator Warning = 2 of the LogLevel enum. -/
def LogLevel.Warning : LogLevel := 2

/-- Enumerator Fatal = 3 of the LogLevel enum. -/
def LogLevel.Fatal : LogLevel := 3

/-- QLogger::logLevelToString: the switch over the four enumerators; a value
outside them falls through the switch to the final return of the empty
string. -/
def logLevelToString (level : LogLevel) : List Char :=
  if level = 0 then "INFO".toList
  else if level = 1 then "DEBUG".toList
  else if level = 2 then "WARNING".toList
  else if level = 3 then "FATAL".toList
  else []

/-- The QLoggerFileStream state: the flush rate and flush counter members.
The underlying QFile is external; the result of each raw QFile write enters
the model as an input of write. -/
structure QLoggerFileStream where
  flush_rate : Int
  flush_count : Int
deriving DecidableEq

/-- The QLoggerFileStream constructor: flush rate 4, flush counter 0. -/
def QLoggerFileStream.init : QLoggerFileStream := { flush_rate := 4, flush_count := 0 }

/-- QLoggerFileStream::write.  The parameter bytes is the value returned by
the raw QFile write (negative one on failure).  The result is the updated
stream state paired with whether an explicit flush was issued on this call.
When the raw write did not fail and the flush rate is positive the counter
advances modulo the rate and a flush is issued exactly when it wraps to
zero.  The C++ remainder and the Lean remainder agree here because the
counter is never negative and the rate is positive in the branch taken. -/
def QLoggerFileStream.write (st : QLoggerFileStream) (bytes : Int) :
    QLoggerFileStream × Bool :=
  if bytes ≠ -1 ∧ 0 < st.flush_rate then
    let c := (st.flush_count + 1) % st.flush_rate
    ({ st with flush_count := c }, decide (c = 0))
  else
    (st, false)

/-- QLoggerFileStream::setFlushRate: stores the rate and resets the flush
counter to zero. -/
def QLoggerFileStream.setFlushRate (st : QLoggerFileStream) (rate : Int) :
    QLoggerFileStream :=
  { st with flush_rate := rate, flush_count := 0 }

/-- A sequence of k successful writes (raw result 1) applied to a file
stream state; used to speak about the k-th successful write. -/
def QLoggerFileStream.runWrites (st : QLoggerFileStream) : Nat → QLoggerFileStream
  | 0 => st
  | k + 1 => ((st.runWrites k).write 1).1

/-- Abstraction of the QLoggerStream interface as observed by QLogger: the
result of open(), the text of errorString(), and the value returned by each
write() call (a function of the written line; the worker discards it). -/
structure QLoggerStream where
  openOk : Bool
  errString : List Char
  writeRes : List Char → Int

/-- The QLogger state: the members of the QLogger class that the modelled
operations read or write.  The size member is a Nat because it always holds
a QStringList size. -/
structure QLogger where
  messages : List (List Char)
  messages_size : Nat
  finish : Bool
  error_string : List Char
  format_string : List Char
  datetime_format : List Char
deriving DecidableEq

/-- The QLogger constructor: empty queue, size 0, finish flag clear, empty
error string, default format template and default datetime pattern. -/
def QLogger.init : QLogger :=
  { messages := []
    messages_size := 0
    finish := false
    error_string := []
    format_string := "[%1] %2 %3".toList
    datetime_format := "dd.MM.yyyy hh:mm:ss".toList }

/-- Observable synchronisation events of a producer-side call, used to state
in which order a call signals the wait condition, takes the lock, builds and
appends the line and stores the size counter. -/
inductive Ev where
  | wakeOne
  | lockAcquire
  | construct
  | append
  | storeSize
  | setFinish
  | lockRelease
deriving DecidableEq, BEq

/-- QLogger::addMessage.  The parameter renderNow models
QDateTime::currentDateTime().toString applied to the stored datetime
pattern: it maps the pattern to the rendered timestamp of this call.  The
call first wakes at most one waiter, then under the lock builds the level
string and the timestamp, appends the formatted line to the queue tail and
stores the new queue size in the size counter.  The second component is the
event trace of the call in program order. -/
def QLogger.addMessage (renderNow : List Char → List Char) (st : QLogger)
    (message : List Char) (level : LogLevel) : QLogger × List Ev :=
  let levelString := logLevelToString level
  let datetime := renderNow st.datetime_format
  let line := formatLine st.format_string datetime levelString message
  let newMessages := st.messages ++ [line]
  ({ st with messages := newMessages, messages_size := newMessages.length },
   [Ev.wakeOne, Ev.lockAcquire, Ev.construct, Ev.append, Ev.storeSize, Ev.lockRelease])

/-- QLogger::finishWriting: wakes at most one waiter, then sets the finish
flag under the lock.  The second component is the event trace of the call in
program order. -/
def QLogger.finishWriting (st : QLogger) : QLogger × List Ev :=
  ({ st with finish := true },
   [Ev.wakeOne, Ev.lockAcquire, Ev.setFinish, Ev.lockRelease])

/-- The pop performed by the worker loop body: front of the queue, pop it,
store the new size.  None models the undefined behaviour of calling front on
an empty QStringList. -/
def QLogger.popFront (st : QLogger) : Option (List Char × QLogger) :=
  match st.messages with
  | [] => none
  | m :: rest => some (m, { st with messages := rest, messages_size := rest.length })

/-- The while loop of QLogger::run, fuel-indexed.  The loop runs while the
finish flag is clear or the size counter is nonzero; when the size counter
is nonzero it pops the front line and writes it to the stream, recording the
line and the value the stream returned; otherwise it waits (modelled as a
fuel-consuming step, since in this sequential model nothing can signal the
condition).  None models exhausted fuel or undefined behaviour. -/
def QLogger.runLoop (sink : QLoggerStream) :
    Nat → QLogger → List (List Char × Int) → Option (QLogger × List (List Char × Int))
  | 0, _, _ => none
  | fuel + 1, st, acc =>
    if st.finish = false ∨ st.messages_size ≠ 0 then
      if st.messages_size ≠ 0 then
        match st.popFront with
        | none => none
        | some (m, st') => QLogger.runLoop sink fuel st' (acc ++ [(m, sink.writeRes m)])
      else
        QLogger.runLoop sink fuel st acc
    else
      some (st, acc)

/-- QLogger::run.  If opening the stream fails, the stream error text is
recorded as the logger error string, the stream is closed and the worker
returns at once, having written nothing.  Otherwise the drain loop runs and
the stream is closed when it exits.  The result carries the final logger
state, the written lines in order together with the value the stream
returned for each, and whether the stream was closed. -/
def QLogger.run (sink : QLoggerStream) (fuel : Nat) (st : QLogger) :
    Option (QLogger × List (List Char × Int) × Bool) :=
  if sink.openOk = false then
    some ({ st with error_string := sink.errString }, [], true)
  else
    match QLogger.runLoop sink fuel st [] with
    | none => none
    | some (st', w) => some (st', w, true)

/-- A sequence of addMessage calls: each input is the rendered timestamp of
the call, the message body and the level. -/
def QLogger.addMessages (st : QLogger)
    (inputs : List (List Char × List Char × LogLevel)) : QLogger :=
  inputs.foldl (fun s i => (QLogger.addMessage (fun _ => i.1) s i.2.1 i.2.2).1) st

/-- The invariant of claim C8: the size counter mirrors the queue length. -/
def sizeInv (st : QLogger) : Prop :=
  st.messages_size = st.messages.length

/-- Scanning skips a character that is not a percent sign. -/
theorem markersAux_cons_of_ne (c : Char) (t : List Char) (hc : c ≠ '%') :
    markersAux (c :: t) = markersAux t := by
  match t with
  | [] => simp [markersAux, hc]
  | [d1] => simp [markersAux, hc]
  | d1 :: d2 :: r => simp [markersAux, hc]

/-- Replacement copies a character that is not a percent sign. -/
theorem replaceMarker_cons_of_ne (k : Nat) (v : List Char) (c : Char) (t : List Char)
    (hc : c ≠ '%') :
    replaceMarker k v (c :: t) = c :: replaceMarker k v t := by
  match t with
  | [] => simp [replaceMarker, hc]
  | [d1] => simp [replaceMarker, hc]
  | d1 :: d2 :: r => simp [replaceMarker, hc]

/-- Scanning is unaffected by a percent-free segment at the front. -/
theorem markersAux_append_of_not_mem (xs ys : List Char) (h : '%' ∉ xs) :
    markersAux (xs ++ ys) = markersAux ys := by
  induction xs with
  | nil => rfl
  | cons c rest ih =>
    have hc : c ≠ '%' := fun hc => h (by simp [hc])
    have hrest : '%' ∉ rest := fun hm => h (List.mem_cons_of_mem _ hm)
    rw [List.cons_append, markersAux_cons_of_ne c _ hc, ih hrest]

/-- Replacement copies a percent-free segment at the front verbatim. -/
theorem replaceMarker_append_of_not_mem (k : Nat) (v : List Char) (xs ys : List Char)
    (h : '%' ∉ xs) :
    replaceMarker k v (xs ++ ys) = xs ++ replaceMarker k v ys := by
  induction xs with
  | nil => rfl
  | cons c rest ih =>
    have hc : c ≠ '%' := fun hc => h (by simp [hc])
    have hrest : '%' ∉ rest := fun hm => h (List.mem_cons_of_mem _ hm)
    rw [List.cons_append, replaceMarker_cons_of_ne k v c _ hc, ih hrest, List.cons_append]

/-- First substitution into the default template: the timestamp replaces the
first marker. -/
theorem qarg_default_first (T : List Char) :
    qarg "[%1] %2 %3".toList T = ('[' :: T) ++ "] %2 %3".toList := rfl

/-- Second substitution into the default template: the level string replaces
the second marker, provided the inserted timestamp is percent free. -/
theorem qarg_default_second (T Lv : List Char) (hT : '%' ∉ T) :
    qarg (('[' :: T) ++ "] %2 %3".toList) Lv =
      ('[' :: T) ++ ("] ".toList ++ (Lv ++ " %3".toList)) := by
  have hx : '%' ∉ ('[' :: T) := by
    intro hm
    rcases List.mem_cons.mp hm with h | h
    · exact absurd h (by decide)
    · exact hT h
  unfold qarg
  rw [markersAux_append_of_not_mem _ _ hx]
  show replaceMarker 2 Lv (('[' :: T) ++ "] %2 %3".toList) = _
  rw [replaceMarker_append_of_not_mem 2 Lv _ _ hx]
  rfl

/-- Third substitution into the default template: the message body replaces
the third marker, provided everything before it is percent free. -/
theorem qarg_default_third (P M : List Char) (hP : '%' ∉ P) :
    qarg (P ++ " %3".toList) M = P ++ (' ' :: M) := by
  unfold qarg
  rw [markersAux_append_of_not_mem _ _ hP]
  show replaceMarker 3 M (P ++ " %3".toList) = _
  rw [replaceMarker_append_of_not_mem 3 M _ _ hP]
  rfl

/-- Closed form of the line produced by the default format template, for any
percent-free timestamp and level string and an arbitrary message body. -/
theorem formatLine_default (T Lv M : List Char) (hT : '%' ∉ T) (hL : '%' ∉ Lv) :
    formatLine "[%1] %2 %3".toList T Lv M =
      '[' :: (T ++ (']' :: ' ' :: (Lv ++ (' ' :: (M ++ ['\n']))))) := by
  have hP : '%' ∉ (('[' :: T) ++ ("] ".toList ++ Lv)) := by
    intro hm
    rcases List.mem_append.mp hm with h | h
    · rcases List.mem_cons.mp h with h | h
      · exact absurd h (by decide)
      · exact hT h
    · rcases List.mem_append.mp h with h | h
      · exact absurd h (by decide)
      · exact hL h
  unfold formatLine
  rw [qarg_default_first, qarg_default_second T Lv hT]
  have hre : ('[' :: T) ++ ("] ".toList ++ (Lv ++ " %3".toList)) =
      (('[' :: T) ++ ("] ".toList ++ Lv)) ++ " %3".toList := by
    simp [List.append_assoc]
  rw [hre, qarg_default_third _ M hP]
  simp [List.append_assoc]

/-- No branch of logLevelToString produces a percent sign. -/
theorem logLevelToString_no_pct (lvl : LogLevel) : '%' ∉ logLevelToString lvl := by
  unfold logLevelToString
  split
  · decide
  · split
    · decide
    · split
      · decide
      · split
        · decide
        · decide

/-- With the finish flag set and the size counter equal to the queue length,
the worker loop pops and writes every queued line in order, leaves an empty
queue with a zero size counter and touches no other member, provided the
fuel exceeds the queue length. -/
theorem runLoop_drain (sink : QLoggerStream) (ms : List (List Char)) :
    ∀ (st : QLogger) (acc : List (List Char × Int)) (fuel : Nat),
      st.finish = true → st.messages = ms → st.messages_size = ms.length →
      ms.length + 1 ≤ fuel →
      QLogger.runLoop sink fuel st acc =
        some ({ st with messages := [], messages_size := 0 },
              acc ++ ms.map (fun m => (m, sink.writeRes m))) := by
  induction ms with
  | nil =>
    intro st acc fuel hf hm hs hfuel
    obtain ⟨f, rfl⟩ : ∃ f, fuel = f + 1 := ⟨fuel - 1, by omega⟩
    rw [QLogger.runLoop, if_neg (by simp [hf, hs])]
    obtain ⟨m1, m2, m3, m4, m5, m6⟩ := st
    simp_all
  | cons m rest ih =>
    intro st acc fuel hf hm hs hfuel
    obtain ⟨f, rfl⟩ : ∃ f, fuel = f + 1 := ⟨fuel - 1, by omega⟩
    have hsz : st.messages_size ≠ 0 := by simp [hs]
    have hpop : st.popFront =
        some (m, { st with messages := rest, messages_size := rest.length }) := by
      unfold QLogger.popFront
      rw [hm]
    rw [QLogger.runLoop, if_pos (Or.inr hsz), if_pos hsz]
    simp only [hpop]
    rw [ih _ _ f (by simp [hf]) (by simp) (by simp) (by simp at hfuel; omega)]
    simp [List.append_assoc]

/-- Unfolding of a sequence of addMessage calls on a state whose size
counter equals its queue length: the formatted lines are appended in call
order and the other members are unchanged. -/
theorem addMessages_eq (inputs : List (List Char × List Char × LogLevel)) :
    ∀ st : QLogger, st.messages_size = st.messages.length →
      QLogger.addMessages st inputs =
        { st with
          messages := st.messages ++
            inputs.map (fun i =>
              formatLine st.format_string i.1 (logLevelToString i.2.2) i.2.1),
          messages_size := st.messages.length + inputs.length } := by
  induction inputs with
  | nil =>
    intro st hs
    obtain ⟨m1, m2, m3, m4, m5, m6⟩ := st
    simp_all [QLogger.addMessages]
  | cons i rest ih =>
    intro st hs
    show QLogger.addMessages ((QLogger.addMessage (fun _ => i.1) st i.2.1 i.2.2).1) rest = _
    rw [ih _ (by simp [QLogger.addMessage])]
    obtain ⟨m1, m2, m3, m4, m5, m6⟩ := st
    simp [QLogger.addMessage, List.append_assoc]
    omega

/-- The pop of the worker loop changes only the queue and its size counter. -/
theorem popFront_fields (st : QLogger) (m : List Char) (st' : QLogger)
    (h : st.popFront = some (m, st')) :
    st'.error_string = st.error_string ∧ st'.finish = st.finish := by
  unfold QLogger.popFront at h
  cases hm : st.messages with
  | nil => rw [hm] at h; simp at h
  | cons a t =>
    rw [hm] at h
    simp at h
    rw [← h.2]
    simp

/-- The worker loop never writes the error string member. -/
theorem runLoop_error_string (sink : QLoggerStream) :
    ∀ (fuel : Nat) (st : QLogger) (acc : List (List Char × Int)) (st' : QLogger)
      (w : List (List Char × Int)),
      QLogger.runLoop sink fuel st acc = some (st', w) →
      st'.error_string = st.error_string := by
  intro fuel
  induction fuel with
  | zero => intro st acc st' w h; simp [QLogger.runLoop] at h
  | succ fl ih =>
    intro st acc st' w h
    rw [QLogger.runLoop] at h
    split at h
    · split at h
      · cases hpop : st.popFront with
        | none => rw [hpop] at h; simp at h
        | some p =>
          obtain ⟨m, st2⟩ := p
          rw [hpop] at h
          simp only at h
          have h2 := ih _ _ _ _ h
          rw [h2, (popFront_fields st m st2 hpop).1]
      · exact ih _ _ _ _ h
    · simp at h
      rw [← h.1]

/-- The control flow and the sequence of written lines of the worker loop do
not depend on the values the stream returns from write. -/
theorem runLoop_writeRes_indep (ok : Bool) (e : List Char) (f g : List Char → Int) :
    ∀ (fuel : Nat) (st : QLogger) (acc acc' : List (List Char × Int)),
      acc.map Prod.fst = acc'.map Prod.fst →
      (QLogger.runLoop ⟨ok, e, f⟩ fuel st acc).map (fun p => (p.1, p.2.map Prod.fst)) =
      (QLogger.runLoop ⟨ok, e, g⟩ fuel st acc').map (fun p => (p.1, p.2.map Prod.fst)) := by
  intro fuel
  induction fuel with
  | zero => intro st acc acc' h; simp [QLogger.runLoop]
  | succ fl ih =>
    intro st acc acc' h
    rw [QLogger.runLoop, QLogger.runLoop]
    split
    · split
      · cases hpop : st.popFront with
        | none => simp
        | some p =>
          obtain ⟨m, st2⟩ := p
          simp only
          exact ih st2 _ _ (by simp [h])
      · exact ih st acc acc' h
    · simp [h]

/-- After k successful writes from a fresh counter the flush counter holds k
modulo the rate, and the rate is unchanged. -/
theorem runWrites_flush_count (R : Int) (hR : 0 < R) (st : QLoggerFileStream)
    (hrate : st.flush_rate = R) (h0 : st.flush_count = 0) :
    ∀ k : Nat, (st.runWrites k).flush_rate = R ∧
      (st.runWrites k).flush_count = (k : Int) % R := by
  intro k
  induction k with
  | zero => simp [QLoggerFileStream.runWrites, hrate, h0]
  | succ k ih =>
    obtain ⟨ih1, ih2⟩ := ih
    simp only [QLoggerFileStream.runWrites]
    unfold QLoggerFileStream.write
    rw [if_pos ⟨by decide, by rw [ih1]; exact hR⟩]
    refine ⟨by simp [ih1], ?_⟩
    simp only [ih1, ih2]
    rw [Int.emod_add_emod]
    push_cast
    ring_nf

/-- C1: for every sequence of addMessage calls followed by finishWriting,
the worker loop writes exactly one formatted line per call to the sink, in
queue (FIFO) order, with no entry skipped or duplicated, and then closes
the sink, leaving an empty queue; fuel exceeding the queue length shows the
loop terminates. -/
theorem run_drains_all_queued_lines_in_order
    (inputs : List (List Char × List Char × LogLevel)) (sink : QLoggerStream)
    (fuel : Nat) (hopen : sink.openOk = true) (hfuel : inputs.length + 1 ≤ fuel) :
    QLogger.run sink fuel (QLogger.finishWriting (QLogger.addMessages QLogger.init inputs)).1 =
      some ({ QLogger.init with finish := true },
        (inputs.map (fun i =>
          formatLine QLogger.init.format_string i.1 (logLevelToString i.2.2) i.2.1)).map
          (fun m => (m, sink.writeRes m)),
        true) := by
  unfold QLogger.run
  rw [if_neg (by simp [hopen])]
  rw [addMessages_eq inputs QLogger.init rfl]
  rw [runLoop_drain sink
      (inputs.map (fun i =>
        formatLine QLogger.init.format_string i.1 (logLevelToString i.2.2) i.2.1))
      _ [] fuel (by simp [QLogger.finishWriting])
      (by simp [QLogger.finishWriting, QLogger.init])
      (by simp [QLogger.finishWriting, QLogger.init])
      (by simpa using hfuel)]
  simp [QLogger.finishWriting, QLogger.init, List.map_map]

/-- Witness for C1 at two queued entries. -/
theorem run_drains_all_queued_lines_in_order_witness :
    QLogger.run ⟨true, [], fun _ => 7⟩ 3
      (QLogger.finishWriting (QLogger.addMessages QLogger.init
        [("a".toList, "hello".toList, LogLevel.Info),
         ("b".toList, "bye".toList, LogLevel.Fatal)])).1 =
      some ({ QLogger.init with finish := true },
        ([("a".toList, "hello".toList, LogLevel.Info),
          ("b".toList, "bye".toList, LogLevel.Fatal)].map (fun i =>
            formatLine QLogger.init.format_string i.1 (logLevelToString i.2.2) i.2.1)).map
          (fun m => (m, (⟨true, [], fun _ => 7⟩ : QLoggerStream).writeRes m)),
        true) :=
  run_drains_all_queued_lines_in_order _ _ _ rfl (by decide)

/-- C2: if opening the stream fails when the worker starts, the stream error
text becomes the logger error string, the stream is closed, the worker
terminates at once without entering the drain loop, and no line is ever
written, whatever is queued; this holds for every fuel, even zero, showing
the drain loop is never entered. -/
theorem run_open_failure_records_error_and_writes_nothing
    (sink : QLoggerStream) (st : QLogger) (fuel : Nat) (h : sink.openOk = false) :
    QLogger.run sink fuel st = some ({ st with error_string := sink.errString }, [], true) := by
  unfold QLogger.run
  rw [if_pos h]

/-- Witness for C2 with a failing stream. -/
theorem run_open_failure_records_error_and_writes_nothing_witness :
    QLogger.run ⟨false, "open failed".toList, fun _ => 0⟩ 0 QLogger.init =
      some ({ QLogger.init with error_string := "open failed".toList }, [], true) :=
  run_open_failure_records_error_and_writes_nothing _ _ _ rfl

/-- C3, counterexample: the claimed order of addMessage, namely construct,
append, store the size counter and only then signal the worker, is false at
a concrete call: in the event trace of the code the wakeOne signal comes
first, before the lock is even taken. -/
theorem addMessage_claimed_signal_last_false :
    ¬ (((QLogger.addMessage (fun _ => "t".toList) QLogger.init "m".toList LogLevel.Info).2.indexOf
          Ev.construct <
        (QLogger.addMessage (fun _ => "t".toList) QLogger.init "m".toList LogLevel.Info).2.indexOf
          Ev.append) ∧
       ((QLogger.addMessage (fun _ => "t".toList) QLogger.init "m".toList LogLevel.Info).2.indexOf
          Ev.append <
        (QLogger.addMessage (fun _ => "t".toList) QLogger.init "m".toList LogLevel.Info).2.indexOf
          Ev.storeSize) ∧
       ((QLogger.addMessage (fun _ => "t".toList) QLogger.init "m".toList LogLevel.Info).2.indexOf
          Ev.storeSize <
        (QLogger.addMessage (fun _ => "t".toList) QLogger.init "m".toList LogLevel.Info).2.indexOf
          Ev.wakeOne)) := by
  decide

/-- C3, amended: in every execution of addMessage the worker is signalled
first (wakeOne, at most one waiter, before the lock is acquired); then,
under the exclusive lock, the line is constructed from the current format
template and datetime pattern, appended to the queue tail, and the size
counter is updated to the new queue length. -/
theorem addMessage_signals_before_append (renderNow : List Char → List Char)
    (st : QLogger) (message : List Char) (level : LogLevel) :
    (QLogger.addMessage renderNow st message level).2 =
      [Ev.wakeOne, Ev.lockAcquire, Ev.construct, Ev.append, Ev.storeSize, Ev.lockRelease]
  ∧ (QLogger.addMessage renderNow st message level).1 =
      { st with
        messages := st.messages ++
          [formatLine st.format_string (renderNow st.datetime_format)
            (logLevelToString level) message],
        messages_size := st.messages.length + 1 } := by
  refine ⟨rfl, ?_⟩
  simp [QLogger.addMessage]

/-- C4: for a file sink with flush rate R set on a fresh counter, when R is
positive the write numbered k plus one issues an explicit flush exactly when
that number is a multiple of R, and the counter afterwards holds the write
number modulo R, hence zero exactly after a flush; when R is not positive a
write never issues an explicit flush. -/
theorem file_write_flush_cadence :
    (∀ (R : Int) (k : Nat) (b : Int), 0 < R → b ≠ -1 →
      (((((QLoggerFileStream.init.setFlushRate R).runWrites k).write b).2 = true ↔
        ((k : Int) + 1) % R = 0) ∧
       ((((QLoggerFileStream.init.setFlushRate R).runWrites k).write b).1.flush_count =
        ((k : Int) + 1) % R)))
  ∧ (∀ (st : QLoggerFileStream) (b : Int), st.flush_rate ≤ 0 → (st.write b).2 = false) := by
  constructor
  · intro R k b hR hb
    have h := runWrites_flush_count R hR (QLoggerFileStream.init.setFlushRate R) rfl rfl k
    unfold QLoggerFileStream.write
    rw [if_pos ⟨hb, by rw [h.1]; exact hR⟩]
    simp only [h.1, h.2]
    rw [Int.emod_add_emod]
    simp
  · intro st b hrate
    unfold QLoggerFileStream.write
    rw [if_neg (by intro hc; omega)]

/-- Witness for C4: with rate 4 the fourth successful write flushes and the
counter returns to zero, and a stream with a negative rate never flushes. -/
theorem file_write_flush_cadence_witness :
    (((((QLoggerFileStream.init.setFlushRate 4).runWrites 3).write 5).2 = true ↔
        (((3 : Nat) : Int) + 1) % 4 = 0) ∧
      ((((QLoggerFileStream.init.setFlushRate 4).runWrites 3).write 5).1.flush_count =
        (((3 : Nat) : Int) + 1) % 4))
  ∧ (({ flush_rate := -1, flush_count := 0 } : QLoggerFileStream).write 7).2 = false :=
  ⟨file_write_flush_cadence.1 4 3 5 (by decide) (by decide),
   file_write_flush_cadence.2 _ 7 (by decide)⟩

/-- C5: with the default template, for every percent-free timestamp, every
message and every level, the queued line is the open bracket, the timestamp,
the closing bracket, a space, the level string, a space, the message and a
newline; the default level mapping sends Info, Debug, Warning and Fatal to
their upper-case names, and the constructor installs the default template
and the default datetime pattern. -/
theorem addMessage_default_template_line (T M : List Char) (lvl : LogLevel)
    (hT : '%' ∉ T) :
    (QLogger.addMessage (fun _ => T) QLogger.init M lvl).1.messages =
      ['[' :: (T ++ (']' :: ' ' :: (logLevelToString lvl ++ (' ' :: (M ++ ['\n'])))))]
  ∧ logLevelToString LogLevel.Info = "INFO".toList
  ∧ logLevelToString LogLevel.Debug = "DEBUG".toList
  ∧ logLevelToString LogLevel.Warning = "WARNING".toList
  ∧ logLevelToString LogLevel.Fatal = "FATAL".toList
  ∧ QLogger.init.format_string = "[%1] %2 %3".toList
  ∧ QLogger.init.datetime_format = "dd.MM.yyyy hh:mm:ss".toList := by
  refine ⟨?_, rfl, rfl, rfl, rfl, rfl, rfl⟩
  simp only [QLogger.addMessage, QLogger.init]
  rw [formatLine_default T (logLevelToString lvl) M hT (logLevelToString_no_pct lvl)]
  simp

/-- Witness for C5 at a concrete timestamp, message and level. -/
theorem addMessage_default_template_line_witness :
    (QLogger.addMessage (fun _ => "01.01.2020 10:20:30".toList) QLogger.init
      "hello".toList LogLevel.Info).1.messages =
      ['[' :: ("01.01.2020 10:20:30".toList ++ (']' :: ' ' ::
        (logLevelToString LogLevel.Info ++ (' ' :: ("hello".toList ++ ['\n'])))))]
  ∧ logLevelToString LogLevel.Info = "INFO".toList
  ∧ logLevelToString LogLevel.Debug = "DEBUG".toList
  ∧ logLevelToString LogLevel.Warning = "WARNING".toList
  ∧ logLevelToString LogLevel.Fatal = "FATAL".toList
  ∧ QLogger.init.format_string = "[%1] %2 %3".toList
  ∧ QLogger.init.datetime_format = "dd.MM.yyyy hh:mm:ss".toList :=
  addMessage_default_template_line _ _ _ (by decide)

/-- C6: finishWriting is idempotent on the logger state, a second call
leaving the state of the first call unchanged; each call does nothing but
set the finish flag. -/
theorem finishWriting_idempotent (st : QLogger) :
    (QLogger.finishWriting (QLogger.finishWriting st).1).1 = (QLogger.finishWriting st).1
  ∧ (QLogger.finishWriting st).1 = { st with finish := true }
  ∧ (QLogger.finishWriting st).1.finish = true :=
  ⟨rfl, rfl, rfl⟩

/-- C7: when a stream write fails or returns a short count during draining
the worker applies no recovery: the traversal, the lines written and the
final state are independent of the values write returns; after a successful
open the error string is unchanged by the whole run; and with every write
failing the worker still writes each queued entry once, in order, exactly
as if the writes had succeeded, and then closes the stream. -/
theorem sink_write_failure_no_recovery :
    (∀ (ok : Bool) (e : List Char) (f g : List Char → Int) (fuel : Nat) (st : QLogger),
      (QLogger.run ⟨ok, e, f⟩ fuel st).map (fun r => (r.1, r.2.1.map Prod.fst, r.2.2)) =
      (QLogger.run ⟨ok, e, g⟩ fuel st).map (fun r => (r.1, r.2.1.map Prod.fst, r.2.2)))
  ∧ (∀ (sink : QLoggerStream) (fuel : Nat) (st st' : QLogger) (w : List (List Char × Int))
      (c : Bool), sink.openOk = true → QLogger.run sink fuel st = some (st', w, c) →
      st'.error_string = st.error_string)
  ∧ (∀ (e : List Char) (st : QLogger) (fuel : Nat),
      st.finish = true → st.messages_size = st.messages.length →
      st.messages.length + 1 ≤ fuel →
      QLogger.run ⟨true, e, fun _ => -1⟩ fuel st =
        some ({ st with messages := [], messages_size := 0 },
              st.messages.map (fun m => (m, -1)), true)) := by
  refine ⟨?_, ?_, ?_⟩
  · intro ok e f g fuel st
    cases ok with
    | false => simp [QLogger.run]
    | true =>
      simp only [QLogger.run]
      have indep := runLoop_writeRes_indep true e f g fuel st [] [] rfl
      cases h1 : QLogger.runLoop ⟨true, e, f⟩ fuel st [] with
      | none =>
        cases h2 : QLogger.runLoop ⟨true, e, g⟩ fuel st [] with
        | none => simp [h1, h2]
        | some p => rw [h1, h2] at indep; simp at indep
      | some p =>
        cases h2 : QLogger.runLoop ⟨true, e, g⟩ fuel st [] with
        | none => rw [h1, h2] at indep; simp at indep
        | some q =>
          rw [h1, h2] at indep
          simp at indep
          simp [h1, h2, indep.1, indep.2]
  · intro sink fuel st st' w c hopen h
    unfold QLogger.run at h
    rw [if_neg (by simp [hopen])] at h
    cases h1 : QLogger.runLoop sink fuel st [] with
    | none => rw [h1] at h; simp at h
    | some p =>
      obtain ⟨st2, w2⟩ := p
      rw [h1] at h
      simp at h
      rw [← h.1]
      exact runLoop_error_string sink fuel st [] st2 w2 h1
  · intro e st fuel hf hs hfuel
    unfold QLogger.run
    rw [if_neg (by simp)]
    rw [runLoop_drain ⟨true, e, fun _ => -1⟩ st.messages st [] fuel hf rfl hs hfuel]
    simp

/-- Witness for C7 at concrete streams and states, with every write
failing in the third conjunct. -/
theorem sink_write_failure_no_recovery_witness :
    ((QLogger.run ⟨true, [], fun _ => 1⟩ 2 QLogger.init).map
        (fun r => (r.1, r.2.1.map Prod.fst, r.2.2)) =
      (QLogger.run ⟨true, [], fun _ => -1⟩ 2 QLogger.init).map
        (fun r => (r.1, r.2.1.map Prod.fst, r.2.2)))
  ∧ ({ QLogger.init with finish := true } : QLogger).error_string =
      ({ QLogger.init with finish := true } : QLogger).error_string
  ∧ QLogger.run ⟨true, [], fun _ => -1⟩ 2
      { QLogger.init with messages := [['a']], messages_size := 1, finish := true } =
      some ({ { QLogger.init with messages := [['a']], messages_size := 1, finish := true }
                with messages := [], messages_size := 0 },
            [['a']].map (fun m => (m, -1)), true) :=
  ⟨sink_write_failure_no_recovery.1 true [] (fun _ => 1) (fun _ => -1) 2 QLogger.init,
   sink_write_failure_no_recovery.2.1 ⟨true, [], fun _ => 0⟩ 1
     { QLogger.init with finish := true } { QLogger.init with finish := true } [] true rfl rfl,
   sink_write_failure_no_recovery.2.2 []
     { QLogger.init with messages := [['a']], messages_size := 1, finish := true }
     2 rfl rfl (by decide)⟩

/-- C8: the size counter equals the queue length after construction, after
every addMessage append, and after every pop of the worker loop. -/
theorem messages_size_mirrors_queue_length :
    sizeInv QLogger.init
  ∧ (∀ (renderNow : List Char → List Char) (st : QLogger) (message : List Char)
      (level : LogLevel), sizeInv (QLogger.addMessage renderNow st message level).1)
  ∧ (∀ (st : QLogger) (m : List Char) (st' : QLogger),
      st.popFront = some (m, st') → sizeInv st') := by
  refine ⟨rfl, ?_, ?_⟩
  · intro rn st msg lvl
    simp [sizeInv, QLogger.addMessage]
  · intro st m st' h
    unfold QLogger.popFront at h
    cases hm : st.messages with
    | nil => rw [hm] at h; simp at h
    | cons a t =>
      rw [hm] at h
      simp at h
      rw [← h.2]
      simp [sizeInv]

/-- Witness for C8: the invariant at the initial state, after a concrete
append, and after a concrete pop. -/
theorem messages_size_mirrors_queue_length_witness :
    sizeInv QLogger.init
  ∧ sizeInv (QLogger.addMessage (fun _ => "t".toList) QLogger.init "m".toList
      LogLevel.Info).1
  ∧ sizeInv { QLogger.init with messages := ["b".toList], messages_size := 1 } :=
  ⟨messages_size_mirrors_queue_length.1,
   messages_size_mirrors_queue_length.2.1 _ _ _ _,
   messages_size_mirrors_queue_length.2.2
     { QLogger.init with messages := ["a".toList, "b".toList], messages_size := 2 }
     "a".toList _ rfl⟩

/-- C9: logLevelToString returns the empty string for every level value
outside the four enumerators, so addMessage succeeds on an out-of-range
level and formats the line with an empty level slot. -/
theorem logLevelToString_total_default_empty (lvl : LogLevel) (T M : List Char)
    (hlvl : ¬(lvl = LogLevel.Info ∨ lvl = LogLevel.Debug ∨ lvl = LogLevel.Warning ∨
              lvl = LogLevel.Fatal))
    (hT : '%' ∉ T) :
    logLevelToString lvl = []
  ∧ (QLogger.addMessage (fun _ => T) QLogger.init M lvl).1.messages =
      ['[' :: (T ++ (']' :: ' ' :: ' ' :: (M ++ ['\n'])))] := by
  push_neg at hlvl
  obtain ⟨h0, h1, h2, h3⟩ := hlvl
  unfold LogLevel.Info at h0
  unfold LogLevel.Debug at h1
  unfold LogLevel.Warning at h2
  unfold LogLevel.Fatal at h3
  have hempty : logLevelToString lvl = [] := by
    unfold logLevelToString
    rw [if_neg h0, if_neg h1, if_neg h2, if_neg h3]
  refine ⟨hempty, ?_⟩
  simp only [QLogger.addMessage, QLogger.init]
  rw [formatLine_default T (logLevelToString lvl) M hT (logLevelToString_no_pct lvl), hempty]
  simp

/-- Witness for C9 at the out-of-range level seven. -/
theorem logLevelToString_total_default_empty_witness :
    logLevelToString 7 = []
  ∧ (QLogger.addMessage (fun _ => "t".toList) QLogger.init "msg".toList 7).1.messages =
      ['[' :: ("t".toList ++ (']' :: ' ' :: ' ' :: ("msg".toList ++ ['\n'])))] :=
  logLevelToString_total_default_empty 7 _ _ (by decide) (by decide)

/-- C10: a failed raw write leaves the file stream state, including the
flush counter, unchanged and issues no flush; setFlushRate stores the rate
and resets the counter to zero; and after setting a positive rate R the
first R minus one successful writes issue no flush, so the next explicit
flush can come only with the R-th further successful write. -/
theorem failed_write_and_setFlushRate_frame :
    (∀ st : QLoggerFileStream, st.write (-1) = (st, false))
  ∧ (∀ (st : QLoggerFileStream) (rate : Int),
      st.setFlushRate rate = { flush_rate := rate, flush_count := 0 })
  ∧ (∀ (st : QLoggerFileStream) (R : Int) (k : Nat) (b : Int),
      0 < R → b ≠ -1 → (k : Int) + 1 < R →
      (((st.setFlushRate R).runWrites k).write b).2 = false) := by
  refine ⟨?_, ?_, ?_⟩
  · intro st
    unfold QLoggerFileStream.write
    rw [if_neg (by intro hc; exact hc.1 rfl)]
  · intro st rate; rfl
  · intro st R k b hR hb hlt
    have h := runWrites_flush_count R hR (st.setFlushRate R) rfl rfl k
    unfold QLoggerFileStream.write
    rw [if_pos ⟨hb, by rw [h.1]; exact hR⟩]
    simp only [h.1, h.2]
    rw [Int.emod_add_emod]
    have hkk : ((k : Int) + 1) % R = (k : Int) + 1 :=
      Int.emod_eq_of_lt (by positivity) hlt
    simp [hkk]
    omega

/-- Witness for C10 at concrete stream states. -/
theorem failed_write_and_setFlushRate_frame_witness :
    (({ flush_rate := 4, flush_count := 2 } : QLoggerFileStream).write (-1) =
      ({ flush_rate := 4, flush_count := 2 }, false))
  ∧ (({ flush_rate := 4, flush_count := 2 } : QLoggerFileStream).setFlushRate 9 =
      { flush_rate := 9, flush_count := 0 })
  ∧ (((({ flush_rate := 1, flush_count := 1 } : QLoggerFileStream).setFlushRate 5).runWrites
        2).write 3).2 = false :=
  ⟨failed_write_and_setFlushRate_frame.1 _,
   failed_write_and_setFlushRate_frame.2.1 _ 9,
   failed_write_and_setFlushRate_frame.2.2 { flush_rate := 1, flush_count := 1 } 5 2 3
     (by decide) (by decide) (by decide)⟩
